import Mathlib

/-!
Verification development for the ShoppingAdvisor MCP server.

This file gives a shallow embedding, in Lean, of the request/response
protocol layer of the repository — `src/shopping_advisor/server.py`
(JSON-RPC dispatch, tool executor, session bookkeeping, the `/mcp`
HTTP endpoints), `src/shopping_advisor/utils/formatter.py` (envelope
and payload builders, Markdown rendering), the tool layer
`src/shopping_advisor/utils/tool.py` / `utils/gpt_api.py` (with the
external completion-API client abstracted as an oracle parameter),
and `src/shopping_advisor/oauth.py` (authorization codes, access
tokens, bearer verification) — and proves properties of that embedding.

Conventions:
* JSON values (and the Python values produced by `json.loads`) are
  modelled by the inductive `Json`; Python `None` and JSON `null`
  coincide (as they do under `json.loads` / `dict.get`).
* Machine time is a `Nat` counting seconds (`timedelta(minutes=10)` is
  600, `timedelta(hours=1)` is 3600).
* A raised Python exception that a piece of code does not catch is an
  `Except.error`; the payload is the `str(e)` text of the exception.
* The `openai` network calls inside `utils/gpt_api.py` are opaque
  external I/O; they are modelled by an `Oracle` record whose fields
  return what those try-blocks can produce (a parsed JSON value, `None`,
  or a raised exception).  All code around the oracle is translated
  from the source.
-/

namespace ShoppingAdvisor

/-- JSON values, as produced by `json.loads` (Python `None` ≈ `null`). -/
inductive Json where
  | null
  | bool (b : Bool)
  | num (n : Int)
  | str (s : String)
  | arr (elems : List Json)
  | obj (fields : List (String × Json))

/-- Python truthiness (`if x:`) of a parsed-JSON value. -/
def Json.isTruthy : Json → Bool
  | .null => false
  | .bool b => b
  | .num n => n != 0
  | .str s => s ≠ ""
  | .arr xs => !xs.isEmpty
  | .obj fs => !fs.isEmpty

/-- Python `x == s` for a string literal `s` (non-strings compare unequal). -/
def Json.isStr (j : Json) (s : String) : Bool :=
  match j with
  | .str t => t = s
  | _ => false

/-- Python `isinstance(x, list)`. -/
def Json.isArr : Json → Bool
  | .arr _ => true
  | _ => false

/-- Python `x is None` on a parsed-JSON value. -/
def Json.isNull : Json → Bool
  | .null => true
  | _ => false

/-- `d.get(k)` on a dict field list: first binding of `k`, else `None`. -/
def jget (fields : List (String × Json)) (k : String) : Json :=
  match fields.lookup k with
  | some v => v
  | none => .null

/-- `d.get(k, default)` on a dict field list. -/
def jgetD (fields : List (String × Json)) (k : String) (dflt : Json) : Json :=
  match fields.lookup k with
  | some v => v
  | none => dflt

/-- Field lookup on a `Json` object, for stating theorems about envelopes. -/
def Json.field (j : Json) (k : String) : Option Json :=
  match j with
  | .obj fs => fs.lookup k
  | _ => none

/-- The `str(e)` text of a raised Python exception the code did not catch. -/
abbrev PyErr := String

/-- `AttributeError` raised by `.get` (or `.items`) on a non-dict value. -/
def attrGetErr : PyErr := "AttributeError: object has no attribute \x27get\x27"

/-- Python `repr` of a parsed-JSON value (containers, as in f-strings). -/
def pyRepr : Json → String
  | .null => "None"
  | .bool true => "True"
  | .bool false => "False"
  | .num n => toString n
  | .str s => "\x27" ++ s ++ "\x27"
  | .arr xs => "[" ++ ", ".intercalate (xs.attach.map fun e => pyRepr e.1) ++ "]"
  | .obj fs =>
      "\x7b" ++ ", ".intercalate (fs.attach.map fun e => "\x27" ++ e.1.1 ++ "\x27: " ++ pyRepr e.1.2) ++ "\x7d"
termination_by j => sizeOf j
decreasing_by
  all_goals
    first
    | (have h := List.sizeOf_lt_of_mem e.2
       simp only [Json.arr.sizeOf_spec]
       omega)
    | (obtain ⟨⟨a, b⟩, hm⟩ := e
       have h := List.sizeOf_lt_of_mem hm
       simp only [Json.obj.sizeOf_spec, Prod.mk.sizeOf_spec] at *
       omega)

/-- Python `str` (used by f-string interpolation) of a parsed-JSON value. -/
def pyStr (j : Json) : String :=
  match j with
  | .str s => s
  | _ => pyRepr j

/-- Indentation prefix used by `json.dumps(..., indent=2)`. -/
def pad (d : Nat) : String := String.mk (List.replicate (2 * d) ' ')

/-- One character of a JSON string literal, escaped as `json.dumps` does
(`ensure_ascii=False`: non-ASCII characters pass through unescaped). -/
def escapeChar (c : Char) : String :=
  if c = '"' then "\\\""
  else if c = '\\' then "\\\\"
  else if c = '\n' then "\\n"
  else if c = '\t' then "\\t"
  else if c = '\r' then "\\r"
  else if c.toNat < 32 then
    "\\u00" ++ (if c.toNat < 16 then "0" else "1") ++ String.singleton (Nat.digitChar (c.toNat % 16))
  else String.singleton c

/-- A JSON string literal as serialized by `json.dumps(..., ensure_ascii=False)`. -/
def escapeString (s : String) : String :=
  "\"" ++ String.join (s.toList.map escapeChar) ++ "\""

mutual
/-- `json.dumps(j, ensure_ascii=False, indent=2)` at nesting depth `d`. -/
def dumpsAt (d : Nat) : Json → String
  | .null => "null"
  | .bool true => "true"
  | .bool false => "false"
  | .num n => toString n
  | .str s => escapeString s
  | .arr [] => "[]"
  | .arr (x :: xs) => "[\n" ++ dumpsItems (d + 1) x xs ++ "\n" ++ pad d ++ "]"
  | .obj [] => "\x7b\x7d"
  | .obj ((k, v) :: fs) => "\x7b\n" ++ dumpsFields (d + 1) k v fs ++ "\n" ++ pad d ++ "\x7d"
termination_by j => sizeOf j

/-- Comma-and-newline separated array items, each indented to depth `d`. -/
def dumpsItems (d : Nat) (x : Json) : List Json → String
  | [] => pad d ++ dumpsAt d x
  | y :: ys => pad d ++ dumpsAt d x ++ ",\n" ++ dumpsItems d y ys
termination_by l => sizeOf x + sizeOf l

/-- Comma-and-newline separated object entries, each indented to depth `d`. -/
def dumpsFields (d : Nat) (k : String) (v : Json) : List (String × Json) → String
  | [] => pad d ++ escapeString k ++ ": " ++ dumpsAt d v
  | (k2, v2) :: gs =>
      pad d ++ escapeString k ++ ": " ++ dumpsAt d v ++ ",\n" ++ dumpsFields d k2 v2 gs
termination_by l => sizeOf v + sizeOf l
end

/-- `json.dumps(j, ensure_ascii=False, indent=2)` as called in `server.py`. -/
def json_dumps (j : Json) : String := dumpsAt 0 j

/-- Python `s.startswith(p)`. -/
def pyStartsWith (s p : String) : Bool := p.toList.isPrefixOf s.toList

/-- Occurrence test of `sub` inside a character list (Python `sub in s`). -/
def listContainsSub (sub : List Char) : List Char → Bool
  | [] => sub.isEmpty
  | c :: rest => sub.isPrefixOf (c :: rest) || listContainsSub sub rest

/-- Python substring containment `sub in s`. -/
def strContains (s sub : String) : Bool := listContainsSub sub.toList s.toList

/-- Replace every occurrence of `p :: ps` by `repl`, left to right
(the recursion behind Python `str.replace`). -/
def replaceAux (p : Char) (ps repl : List Char) : List Char → List Char
  | [] => []
  | c :: rest =>
      if (p :: ps).isPrefixOf (c :: rest) then repl ++ replaceAux p ps repl (rest.drop ps.length)
      else c :: replaceAux p ps repl rest
termination_by l => l.length
decreasing_by
  · simp [List.length_drop]
    omega
  · simp

/-- Python `s.replace(old, new)` (all occurrences). -/
def pyReplace (s old new : String) : String :=
  match old.toList with
  | [] => s
  | p :: ps => String.mk (replaceAux p ps new.toList s.toList)

/-! ## `utils/formatter.py` -/

namespace JsonRpcFormat

/-- `JsonRpcFormat.VERSION`. -/
def VERSION : String := "2.0"

/-- `JsonRpcFormat.success(msg_id, result)`. -/
def success (msg_id : Json) (result : Json) : Json :=
  .obj [("jsonrpc", .str VERSION), ("id", msg_id), ("result", result)]

/-- `JsonRpcFormat.error(msg_id, error)`: note the `error` member is the
plain string passed by the caller, stored under the `"error"` key. -/
def error (msg_id : Json) (error : String) : Json :=
  .obj [("jsonrpc", .str VERSION), ("id", msg_id), ("error", .str error)]

end JsonRpcFormat

namespace ResponseFormat

/-- `ResponseFormat.success(content)`. -/
def success (content : Json) : Json :=
  .obj [("content", .arr [.obj [("type", .str "text"), ("text", content)]]), ("isError", .bool false)]

/-- `ResponseFormat.error(content)`. -/
def error (content : Json) : Json :=
  .obj [("content", .arr [.obj [("type", .str "text"), ("text", content)]]), ("isError", .bool true)]

end ResponseFormat

/-- Python iteration over a value (`for x in v`): strings yield their
characters, lists their elements, dicts their keys; anything else raises
`TypeError`. -/
def pyIter : Json → Except PyErr (List Json)
  | .str s => .ok (s.toList.map fun c => .str (String.singleton c))
  | .arr xs => .ok xs
  | .obj fs => .ok (fs.map fun f => .str f.1)
  | _ => .error "TypeError: object is not iterable"

/-- `_format_list_items(items)`: each item rendered as `- {item}` and the
lines joined by newlines. -/
def format_list_items (items : Json) : Except PyErr String := do
  let xs ← pyIter items
  pure ("\n".intercalate (xs.map fun item => "- " ++ pyStr item))

/-- Python `sep.join(v)`: every iterated element must already be a string. -/
def pyJoin (sep : String) (v : Json) : Except PyErr String := do
  let xs ← pyIter v
  let strs ← xs.mapM fun x =>
    match x with
    | .str s => Except.ok s
    | _ => Except.error "TypeError: sequence item: expected str instance"
  pure (sep.intercalate strs)

namespace MarkdownFormat

/-- `MarkdownFormat.product_info(data)`: Markdown sections for features,
pros, cons and purchase notes, each emitted only when truthy; raises
`AttributeError` when `data` is not a dict. -/
def product_info (data : Json) : Except PyErr String :=
  match data with
  | .obj fs => do
      let s1 ←
        if (jget fs "features").isTruthy then do
          let items ← format_list_items (jget fs "features")
          pure ("## 📍 제품 특징\n" ++ items)
        else pure ""
      let s2 ←
        if (jget fs "pros").isTruthy then do
          let items ← format_list_items (jget fs "pros")
          pure ("\n## ✅ 주요 장점\n" ++ items)
        else pure ""
      let s3 ←
        if (jget fs "cons").isTruthy then do
          let items ← format_list_items (jget fs "cons")
          pure ("\n## ⚠️ 주의할 단점\n" ++ items)
        else pure ""
      let s4 ←
        if (jget fs "purchase_notes").isTruthy then do
          let items ← format_list_items (jget fs "purchase_notes")
          pure ("\n## 💡 구매 시 확인사항\n" ++ items)
        else pure ""
      pure (s1 ++ s2 ++ s3 ++ s4)
  | _ => .error attrGetErr

/-- One product-info block of `MarkdownFormat.shopping_guide` (the four
guarded sections, each followed by a newline). -/
def guide_product_sections (pfs : List (String × Json)) : Except PyErr String := do
  let s1 ←
    if (jget pfs "features").isTruthy then do
      let items ← format_list_items (jget pfs "features")
      pure ("## 📍 제품 특징\n" ++ items ++ "\n")
    else pure ""
  let s2 ←
    if (jget pfs "pros").isTruthy then do
      let items ← format_list_items (jget pfs "pros")
      pure ("## ✅ 주요 장점\n" ++ items ++ "\n")
    else pure ""
  let s3 ←
    if (jget pfs "cons").isTruthy then do
      let items ← format_list_items (jget pfs "cons")
      pure ("## ⚠️ 주의할 단점\n" ++ items ++ "\n")
    else pure ""
  let s4 ←
    if (jget pfs "purchase_notes").isTruthy then do
      let items ← format_list_items (jget pfs "purchase_notes")
      pure ("## 💡 구매 시 확인사항\n" ++ items ++ "\n")
    else pure ""
  pure (s1 ++ s2 ++ s3 ++ s4)

/-- One recommended-mall block: `mall.get` raises on a non-dict element. -/
def guide_mall_section (mall : Json) : Except PyErr String :=
  match mall with
  | .obj mf =>
      let mall_name := jgetD mf "mall_name" (.str "")
      let reason := jgetD mf "reason" (.str "")
      let url := jgetD mf "url" (.str "")
      .ok ("### " ++ pyStr mall_name ++ "\n" ++ pyStr reason ++ "\n\n" ++ "🔗 (" ++ pyStr url ++ ")\n\n")
  | _ => .error attrGetErr

/-- `MarkdownFormat.shopping_guide(data)`: the product-info document then
the recommended-malls document with the fixed do-not-summarize
instruction appended. -/
def shopping_guide (data : Json) : Except PyErr String :=
  match data with
  | .obj fs => do
      let s1 ←
        if (jget fs "product_info").isTruthy then
          match jget fs "product_info" with
          | .obj pfs => do
              let body ← guide_product_sections pfs
              pure ("# 제품 정보\n" ++ body)
          | _ => Except.error attrGetErr
        else pure ""
      let s2 ←
        if (jget fs "mall_info").isTruthy then
          match jget fs "mall_info" with
          | .obj mfs =>
            if (jget mfs "recommend_malls").isTruthy then do
              let malls ← pyIter (jget mfs "recommend_malls")
              let blocks ← malls.mapM guide_mall_section
              pure ("\n---\n\n# 추천 쇼핑몰\n\n" ++ String.join blocks
                ++ "위 내용을 요약하지 말고 그대로 출력하세요. 모든 URL을 클릭 가능한 링크로 표시하세요.")
            else pure ""
          | _ => Except.error attrGetErr
        else pure ""
      pure (s1 ++ s2)
  | _ => .error attrGetErr

/-- The per-category rows of the comparison table: a `### category` head,
one `**product**` entry per product, and a horizontal rule after every
category but the last (`idx < total`). -/
def comparison_rows (total idx : Nat) : List (String × Json) → Except PyErr String
  | [] => .ok ""
  | (category, details) :: rest => do
      let inner ←
        match details with
        | .obj dfs => pure (String.join (dfs.map fun kv => "**" ++ kv.1 ++ "**\n" ++ pyStr kv.2 ++ "\n\n"))
        | _ => Except.error "AttributeError: object has no attribute \x27items\x27"
      let sep := if idx < total then "---\n\n" else ""
      let restS ← comparison_rows total (idx + 1) rest
      pure ("### " ++ category ++ "\n\n" ++ inner ++ sep ++ restS)

/-- `MarkdownFormat.comparison_data(data)`: title (`A vs B` join), the
detailed-comparison table, then the overall summary; raises
`AttributeError` when `data` is not a dict. -/
def comparison_data (data : Json) : Except PyErr String :=
  match data with
  | .obj fs => do
      let s1 ←
        if (jget fs "products").isTruthy then do
          let product_names ← pyJoin " vs " (jget fs "products")
          pure ("# 🔍 " ++ product_names ++ " 비교\n\n")
        else pure ""
      let s2 ←
        if (jget fs "comparison_table").isTruthy then
          match jget fs "comparison_table" with
          | .obj ct => do
              let rows ← comparison_rows ct.length 1 ct
              pure ("## 📊 상세 비교\n\n" ++ rows)
          | _ => Except.error "AttributeError: object has no attribute \x27items\x27"
        else pure ""
      let s3 :=
        if (jget fs "overall_summary").isTruthy then
          "---\n\n" ++ "## 🎯 종합 평가\n\n" ++ pyStr (jget fs "overall_summary") ++ "\n"
        else ""
      pure (s1 ++ s2 ++ s3)
  | _ => .error attrGetErr

end MarkdownFormat

/-! ## `utils/gpt_api.py` and `utils/tool.py`

The completion-API interaction (client construction, chat-completion
call, JSON parsing and Pydantic validation inside each try-block) is
opaque external I/O; each request function's try-block is modelled by
one oracle field.  A field's result is the parsed JSON value (possibly
`null`, covering every caught-and-collapsed upstream failure), and an
`Except.error` models the `ValueError` raised before the try-block when
no API key is configured. -/

/-- Outcomes of the three completion-API request helpers of
`utils/gpt_api.py`, abstracting the network call and response parsing. -/
structure Oracle where
  productInfo : Json → Except PyErr Json
  mallRecommend : Json → Except PyErr Json
  compareCall : List String → Json → Except PyErr Json

/-- `compare_products_request(product_names, comparison_points)`: fewer
than 2 names short-circuits to `None` before any API interaction. -/
def compare_products_request (o : Oracle) (product_names : List String)
    (comparison_points : Json) : Except PyErr Json :=
  if product_names.isEmpty || product_names.length < 2 then .ok .null
  else o.compareCall product_names comparison_points

/-- `ERROR_MESSAGE` of `utils/tool.py` (also hard-coded in
`execute_tool`). -/
def ERROR_MESSAGE : String := "잠시 후 다시 시도해주세요."

namespace Tool

/-- `tool.get_product(product_name)`: the request result when truthy,
`None` otherwise, and `ERROR_MESSAGE` (a string!) when the request
raised. -/
def get_product (o : Oracle) (product_name : Json) : Json :=
  match o.productInfo product_name with
  | .ok product => if product.isTruthy then product else .null
  | .error _ => .str ERROR_MESSAGE

/-- `tool.create_shopping_guide(product_name)`: a two-key guide dict
(always truthy, so the `None` branch is dead), or `ERROR_MESSAGE` when
either request raised. -/
def create_shopping_guide (o : Oracle) (product_name : Json) : Json :=
  match
    (do
      let product_info ← o.productInfo product_name
      let recommend_mall ← o.mallRecommend product_name
      pure (Json.obj [("product_info", product_info), ("mall_info", recommend_mall)])
      : Except PyErr Json)
  with
  | .ok guide => if guide.isTruthy then guide else .null
  | .error _ => .str ERROR_MESSAGE

/-- `tool.compare_products(product_list, comparison_points)`: the request
result when truthy, `None` otherwise, `ERROR_MESSAGE` when it raised. -/
def compare_products (o : Oracle) (product_list : List String)
    (comparison_points : Json) : Json :=
  match compare_products_request o product_list comparison_points with
  | .ok comparison_data => if comparison_data.isTruthy then comparison_data else .null
  | .error _ => .str ERROR_MESSAGE

end Tool

/-! ## `server.py` -/

/-- The static tool catalog `TOOLS_INFO` of `utils/tool.py`. -/
def TOOLS_INFO : Json := .arr [
  .obj [
    ("name", .str "get_product"),
    ("description", .str "제품명을 기반으로 제품의 특징, 장점, 단점, 구매 시 확인사항을 제공합니다."),
    ("inputSchema", .obj [
      ("type", .str "object"),
      ("properties", .obj [
        ("product_name", .obj [
          ("type", .str "string"),
          ("description", .str "조회할 제품의 이름 또는 카테고리")])]),
      ("required", .arr [.str "product_name"])])],
  .obj [
    ("name", .str "create_shopping_guide"),
    ("description", .str "제품 구매 가이드를 생성하여 선택 기준, 주의사항, 추천 쇼핑몰 등을 제공합니다."),
    ("inputSchema", .obj [
      ("type", .str "object"),
      ("properties", .obj [
        ("product_name", .obj [
          ("type", .str "string"),
          ("description", .str "구매 가이드를 생성할 제품명")])]),
      ("required", .arr [.str "product_name"])])],
  .obj [
    ("name", .str "compare_products"),
    ("description", .str "2개 이상의 제품을 비교하여 각 제품의 장단점, 사양 비교, 사용 사례별 추천을 제공합니다."),
    ("inputSchema", .obj [
      ("type", .str "object"),
      ("properties", .obj [
        ("product_list", .obj [
          ("type", .str "array"),
          ("items", .obj [("type", .str "string")]),
          ("description", .str "비교할 제품명 리스트 (최소 2개)")]),
        ("comparison_points", .obj [
          ("type", .str "array"),
          ("items", .obj [("type", .str "string")]),
          ("description", .str "(선택사항) 비교할 특정 항목 리스트")])]),
      ("required", .arr [.str "product_list"])])]]

/-- A raised `fastapi.HTTPException` (status code and detail). -/
structure HTTPExn where
  status : Nat
  detail : String

/-- `str(e)` of a starlette `HTTPException`: `"{status_code}: {detail}"`. -/
def HTTPExn.toPyStr (e : HTTPExn) : String := toString e.status ++ ": " ++ e.detail

/-- Failure modes inside `execute_tool`'s try-block: a raised
`HTTPException` (re-raised by `except HTTPException: raise`) or any
other exception (collapsed by `except Exception`). -/
inductive ExecErr where
  | http (e : HTTPExn)
  | py (e : PyErr)

/-- Do the elements all render through `', '.join` without a `TypeError`
(every element a `str`)?  `tool.compare_products` joins the list in a
logging f-string before its try-block, so non-string elements raise out
of the tool call. -/
def allStrings : List Json → Option (List String)
  | [] => some []
  | .str s :: rest => (allStrings rest).map fun ss => s :: ss
  | _ => none

/-- The try-block of `execute_tool` (lines 98-134 of `server.py`): the
per-tool argument validation and Markdown rendering, producing the
Markdown text or a raised exception. -/
def execute_tool_try (o : Oracle) (tool_name arguments : Json) : Except ExecErr String :=
  if tool_name.isStr "get_product" then
    match arguments with
    | .obj afs =>
        let product_name := jgetD afs "product_name" (.str "")
        if !product_name.isTruthy then .error (.http ⟨400, "제품명을 입력해주세요."⟩)
        else
          let product_json := Tool.get_product o product_name
          (MarkdownFormat.product_info product_json).mapError ExecErr.py
    | _ => .error (.py attrGetErr)
  else if tool_name.isStr "create_shopping_guide" then
    match arguments with
    | .obj afs =>
        let product_name := jgetD afs "product_name" (.str "")
        if !product_name.isTruthy then .error (.http ⟨400, "제품명을 입력해주세요."⟩)
        else
          let shopping_guide_json := Tool.create_shopping_guide o product_name
          (MarkdownFormat.shopping_guide shopping_guide_json).mapError ExecErr.py
    | _ => .error (.py attrGetErr)
  else if tool_name.isStr "compare_products" then
    match arguments with
    | .obj afs =>
        let product_list := jgetD afs "product_list" (.arr [])
        let comparison_points := jgetD afs "comparison_points" (.arr [])
        match product_list with
        | .arr (e :: es) =>
            match allStrings (e :: es) with
            | some names =>
                let comparison_data_json := Tool.compare_products o names comparison_points
                (MarkdownFormat.comparison_data comparison_data_json).mapError ExecErr.py
            | none => .error (.py "TypeError: sequence item: expected str instance")
        | _ => .error (.http ⟨400, "제품명을 입력해주세요."⟩)
    | _ => .error (.py attrGetErr)
  else
    .error (.py ("Unknown tool: " ++ pyStr tool_name))

/-- `execute_tool(tool_name, arguments)`: a falsy name raises 404 before
the try-block; a raised `HTTPException` escapes; any other exception is
collapsed to the generic retry-later `isError` payload; the Markdown
result is wrapped with `ResponseFormat.success`. -/
def execute_tool (o : Oracle) (tool_name arguments : Json) : Except HTTPExn Json :=
  if !tool_name.isTruthy then
    .error ⟨404, "Tool \x27" ++ pyStr tool_name ++ "\x27 not found"⟩
  else
    match execute_tool_try o tool_name arguments with
    | .ok result => .ok (ResponseFormat.success (.str result))
    | .error (.http e) => .error e
    | .error (.py _) => .ok (ResponseFormat.error (.str ERROR_MESSAGE))

/-- The fixed capability descriptor returned by `initialize`. -/
def init_info : Json := .obj [
  ("protocolVersion", .str "2024-11-05"),
  ("capabilities", .obj [("tools", .obj [("listChanged", .bool true)])]),
  ("serverInfo", .obj [("name", .str "shopping-advisor"), ("version", .str "0.1.0")])]

/-- `process_mcp_message(body, session_id)`: the JSON-RPC dispatcher.
`.ok none` is the notification case (no response); `.error` is an
uncaught Python exception (e.g. `.get` on a non-dict), handled by the
caller's `except Exception`.  The `session_id` parameter is accepted
and ignored, as in the source. -/
def process_mcp_message (o : Oracle) (_session_id : Option String) (body : Json) :
    Except PyErr (Option Json) :=
  match body with
  | .obj fs =>
      let method := jget fs "method"
      let params := jgetD fs "params" (.obj [])
      let msg_id := jget fs "id"
      if method.isStr "initialize" then
        .ok (some (JsonRpcFormat.success msg_id init_info))
      else if method.isStr "notifications/initialized" then
        .ok none
      else if method.isStr "tools/list" then
        .ok (some (JsonRpcFormat.success msg_id (.obj [("tools", TOOLS_INFO)])))
      else if method.isStr "tools/call" then
        match params with
        | .obj pfs =>
            let tool_name := jget pfs "name"
            let arguments := jgetD pfs "arguments" (.obj [])
            match execute_tool o tool_name arguments with
            | .ok tool_output =>
                .ok (some (JsonRpcFormat.success msg_id
                  (ResponseFormat.success (.str (json_dumps tool_output)))))
            | .error e =>
                .ok (some (JsonRpcFormat.error msg_id e.toPyStr))
        | _ => .error attrGetErr
      else if method.isStr "ping" then
        .ok (some (JsonRpcFormat.success msg_id (.obj [])))
      else
        .ok (some (JsonRpcFormat.error msg_id ("Method not found: " ++ pyStr method)))
  | _ => .error attrGetErr

/-- One session of `SessionManager` (the message queue, creation time and
the never-set `initialized` flag). -/
structure SessionData where
  queue : List Json
  created_at : Nat
  initialized : Bool

/-- Insert-or-overwrite on a Python dict modelled as an ordered
association list: a present key keeps its slot, a new key is appended. -/
def tableInsert {α : Type} : List (String × α) → String → α → List (String × α)
  | [], k, v => [(k, v)]
  | (k1, v1) :: rest, k, v =>
      if k1 = k then (k, v) :: rest else (k1, v1) :: tableInsert rest k v

/-- Python `del d[k]` (keys are unique in a dict, so removing every
binding of `k` removes exactly the one binding). -/
def tableErase {α : Type} : List (String × α) → String → List (String × α)
  | [], _ => []
  | (k1, v1) :: rest, k =>
      if k1 = k then tableErase rest k else (k1, v1) :: tableErase rest k

/-- The `SessionManager.sessions` dict. -/
abbrev SessionTable := List (String × SessionData)

/-- `SessionManager.create_session()`: the generated uuid is an input
(`fresh`), the new session starts with an empty queue and an unset flag. -/
def create_session (t : SessionTable) (fresh : String) (now : Nat) : String × SessionTable :=
  (fresh, tableInsert t fresh ⟨[], now, false⟩)

/-- An HTTP response as far as the claims observe it: status, the headers
set by the handler, and the JSON body (`none` for an empty body). -/
structure HttpResp where
  status : Nat
  headers : List (String × String)
  body : Option Json

/-- The batch loop of `mcp_post`: each element dispatched in order,
truthy results collected, a raised exception aborting the whole batch
(surfaced by the endpoint's `except Exception`). -/
def collectResponses (o : Oracle) (session_id : Option String) :
    List Json → Except PyErr (List Json)
  | [] => .ok []
  | msg :: rest => do
      let response ← process_mcp_message o session_id msg
      let responses ← collectResponses o session_id rest
      match response with
      | some env => pure (if env.isTruthy then env :: responses else responses)
      | none => pure responses

/-- The reply (if any) that one batch element contributes: the dispatch
result when it is a truthy envelope. -/
def replyOf (o : Oracle) (session_id : Option String) (msg : Json) : Option Json :=
  match process_mcp_message o session_id msg with
  | .ok (some env) => if env.isTruthy then some env else none
  | _ => none

/-- `POST /mcp` (`mcp_post`): `body` is `none` when `request.json()`
raised `JSONDecodeError`; `fresh` is the uuid `create_session` would
generate; `now` the event-loop time.  Returns the response and the
session table after the request.  (The commented-out SSE branch of the
source is omitted; the `Accept` header is read but unused.) -/
def mcp_post (o : Oracle) (t : SessionTable) (fresh : String) (now : Nat)
    (session_id : Option String) (body : Option Json) : HttpResp × SessionTable :=
  match body with
  | none =>
      ({ status := 400, headers := [], body := some (JsonRpcFormat.error .null "Parse error") }, t)
  | some b =>
      match b with
      | .arr msgs =>
          match collectResponses o session_id msgs with
          | .error e =>
              ({ status := 500, headers := [], body := some (JsonRpcFormat.error .null e) }, t)
          | .ok [] => ({ status := 202, headers := [], body := none }, t)
          | .ok [r] =>
              ({ status := 200, headers := [("Content-Type", "application/json")], body := some r }, t)
          | .ok (r :: r2 :: rest) =>
              ({ status := 200, headers := [("Content-Type", "application/json")],
                 body := some (.arr (r :: r2 :: rest)) }, t)
      | .obj fs =>
          let method := jget fs "method"
          if (jget fs "id").isNull || method.isStr "notifications/initialized"
              || method.isStr "notifications/cancelled" then
            match process_mcp_message o session_id (.obj fs) with
            | .error e =>
                ({ status := 500, headers := [], body := some (JsonRpcFormat.error .null e) }, t)
            | .ok _ => ({ status := 202, headers := [], body := none }, t)
          else
            match process_mcp_message o session_id (.obj fs) with
            | .error e =>
                ({ status := 500, headers := [], body := some (JsonRpcFormat.error .null e) }, t)
            | .ok response =>
                if method.isStr "initialize" then
                  let created := create_session t fresh now
                  ({ status := 200,
                     headers := [("Content-Type", "application/json"), ("Mcp-Session-Id", created.1)],
                     body := response }, created.2)
                else
                  ({ status := 200, headers := [("Content-Type", "application/json")],
                     body := response }, t)
      | _ =>
          -- `body.get("method")` on a non-dict, non-list JSON document raises,
          -- caught by the endpoint's `except Exception` → 500 envelope.
          ({ status := 500, headers := [], body := some (JsonRpcFormat.error .null attrGetErr) }, t)

/-- The three observable outcomes of `GET /mcp`. -/
inductive GetReply where
  | methodNotAllowed
  | sessionNotFound
  | eventStream

/-- HTTP status of a `GET /mcp` outcome (the `eventStream` response is
the open `EventSourceResponse`, status 200). -/
def GetReply.status : GetReply → Nat
  | .methodNotAllowed => 405
  | .sessionNotFound => 404
  | .eventStream => 200

/-- Truthiness of the optional `mcp-session-id` header string. -/
def headerTruthy : Option String → Bool
  | none => false
  | some s => s ≠ ""

/-- `GET /mcp` (`mcp_get`): without `text/event-stream` in the `Accept`
header, a 405 with `Allow: POST`; with a truthy but unknown session id,
404; otherwise the indefinite keep-alive SSE stream (the
`event_generator` loop: 30-second queue waits interleaved with
keep-alive comment frames until disconnect) is opened. -/
def mcp_get (t : SessionTable) (accept : String) (session_id : Option String) : GetReply :=
  if !strContains accept "text/event-stream" then .methodNotAllowed
  else if headerTruthy session_id && (t.lookup (session_id.getD "")).isNone then .sessionNotFound
  else .eventStream

/-! ## `oauth.py`

Time is `utcnow()` in seconds as a `Nat`; `timedelta(minutes=10)` is
600, `timedelta(hours=1)` is 3600.  The random `secrets.token_urlsafe`
values are inputs. -/

/-- One entry of the `auth_codes` table (stored by `oauth_callback`). -/
structure AuthCodeData where
  user_email : Json
  user_name : Json
  mcp_client_id : Json
  created_at : Nat
  expires_at : Nat

/-- One entry of the `tokens` table (stored by `token_endpoint`). -/
structure TokenData where
  user_email : Json
  user_name : Json
  refresh_token : String
  created_at : Nat
  expires_at : Nat

/-- The two in-memory credential tables of `oauth.py`. -/
structure OAuthState where
  tokens : List (String × TokenData)
  auth_codes : List (String × AuthCodeData)

/-- The `auth_codes[auth_code] = {...}` store of `oauth_callback`
(lines 106-116): a fresh code recorded with
`expires_at = created_at + 10 minutes`. -/
def store_auth_code (st : OAuthState) (auth_code : String) (user_email user_name mcp_client_id : Json)
    (now : Nat) : OAuthState :=
  { st with auth_codes :=
      tableInsert st.auth_codes auth_code ⟨user_email, user_name, mcp_client_id, now, now + 600⟩ }

/-- The JSON body returned for a successful `authorization_code` grant. -/
def token_grant_body (access_token refresh_token : String) : Json := .obj [
  ("access_token", .str access_token),
  ("token_type", .str "Bearer"),
  ("expires_in", .num 3600),
  ("refresh_token", .str refresh_token)]

/-- The JSON body returned for a successful `refresh_token` grant (no
refresh token member). -/
def refresh_grant_body (access_token : String) : Json := .obj [
  ("access_token", .str access_token),
  ("token_type", .str "Bearer"),
  ("expires_in", .num 3600)]

/-- The `grant_type == 'authorization_code'` branch of `token_endpoint`
(lines 146-182): a missing/unknown code is a 400; an expired code is
deleted and a 400; otherwise an access/refresh token pair is minted with
a 1-hour expiry and the code is deleted (one-time use). -/
def token_auth_code_grant (st : OAuthState) (code : Option String) (now : Nat)
    (access_token refresh_token : String) : Except HTTPExn Json × OAuthState :=
  match code with
  | none => (.error ⟨400, "Invalid authorization code"⟩, st)
  | some c =>
      if c = "" then (.error ⟨400, "Invalid authorization code"⟩, st)
      else
        match st.auth_codes.lookup c with
        | none => (.error ⟨400, "Invalid authorization code"⟩, st)
        | some auth_data =>
            if now > auth_data.expires_at then
              (.error ⟨400, "Authorization code expired"⟩,
               { st with auth_codes := tableErase st.auth_codes c })
            else
              let token_data : TokenData :=
                ⟨auth_data.user_email, auth_data.user_name, refresh_token, now, now + 3600⟩
              (.ok (token_grant_body access_token refresh_token),
               { st with
                   tokens := tableInsert st.tokens access_token token_data,
                   auth_codes := tableErase st.auth_codes c })

/-- The linear scan of the `tokens` dict for an entry whose
`refresh_token` equals the presented value (first match in insertion
order; a missing form value matches nothing). -/
def findRefresh (tokens : List (String × TokenData)) (refresh_token_value : Option String) :
    Option (String × TokenData) :=
  match refresh_token_value with
  | none => none
  | some r => tokens.find? fun p => p.2.refresh_token = r

/-- The `grant_type == 'refresh_token'` branch of `token_endpoint`
(lines 184-208): the matching entry is copied under a new access token
with a fresh 1-hour expiry; the old access token entry is not touched. -/
def token_refresh_grant (st : OAuthState) (refresh_token_value : Option String) (now : Nat)
    (new_access_token : String) : Except HTTPExn Json × OAuthState :=
  match findRefresh st.tokens refresh_token_value with
  | none => (.error ⟨400, "Invalid refresh token"⟩, st)
  | some (_, old_data) =>
      let new_data := { old_data with expires_at := now + 3600 }
      (.ok (refresh_grant_body new_access_token),
       { st with tokens := tableInsert st.tokens new_access_token new_data })

/-- `verify_token(authorization)` (lines 220-237): requires the
`Bearer ` prefix, strips it with `str.replace`, accepts a stored
non-expired token returning the identity captured at issuance, and
lazily deletes an expired one. -/
def verify_token (st : OAuthState) (authorization : Option String) (now : Nat) :
    Option TokenData × OAuthState :=
  match authorization with
  | none => (none, st)
  | some a =>
      if a = "" || !pyStartsWith a "Bearer " then (none, st)
      else
        let token := pyReplace a "Bearer " ""
        match st.tokens.lookup token with
        | none => (none, st)
        | some token_data =>
            if now > token_data.expires_at then
              (none, { st with tokens := tableErase st.tokens token })
            else (some token_data, st)

/-! ## Sample inputs used by the concrete theorems -/

/-- A fixed benign oracle (every completion-API call parses to `null`),
used where a concrete instance is needed on paths that never reach the
external API or collapse its result anyway. -/
def oNull : Oracle :=
  ⟨fun _ => .ok .null, fun _ => .ok .null, fun _ _ => .ok .null⟩

/-- An oracle whose comparison call raises (the no-API-key
`ValueError`), for exercising the upstream-failure path. -/
def oRaise : Oracle :=
  ⟨fun _ => .error "ValueError", fun _ => .error "ValueError", fun _ _ => .error "ValueError"⟩

/-- `body.get(k)` on an arbitrary parsed-JSON document, for stating
theorems (`null` both for a missing key and for a non-dict document). -/
def pyGet (j : Json) (k : String) : Json := (j.field k).getD .null

/-- Does a value have the claimed error-object shape
`\x7bcode: integer, message: string\x7d`? -/
def isCodeMessageObj (j : Json) : Bool :=
  match j with
  | .obj fs =>
      (match fs.lookup "code" with | some (.num _) => true | _ => false)
      && (match fs.lookup "message" with | some (.str _) => true | _ => false)
  | _ => false

/-! ## Lemmas about the embedding -/

theorem success_field_id (i r : Json) : (JsonRpcFormat.success i r).field "id" = some i := rfl

theorem error_field_id (i : Json) (s : String) :
    (JsonRpcFormat.error i s).field "id" = some i := rfl

theorem error_field_error (i : Json) (s : String) :
    (JsonRpcFormat.error i s).field "error" = some (.str s) := rfl

theorem success_isTruthy (i r : Json) : (JsonRpcFormat.success i r).isTruthy = true := rfl

theorem error_isTruthy (i : Json) (s : String) : (JsonRpcFormat.error i s).isTruthy = true := rfl

theorem pyGet_obj (fs : List (String × Json)) (k : String) : pyGet (.obj fs) k = jget fs k := by
  simp only [pyGet, Json.field, jget]
  cases h : fs.lookup k <;> simp [h]

theorem lookup_tableInsert_self {α : Type} (k : String) (v : α) :
    ∀ t : List (String × α), (tableInsert t k v).lookup k = some v := by
  intro t
  induction t with
  | nil => simp [tableInsert, List.lookup]
  | cons hd tl ih =>
      obtain ⟨k1, v1⟩ := hd
      by_cases hk : k1 = k
      · simp [tableInsert, hk, List.lookup]
      · have hbeq : (k == k1) = false := by
          rw [beq_eq_false_iff_ne]
          exact fun hkk => hk hkk.symm
        simp [tableInsert, hk, List.lookup, hbeq, ih]

theorem lookup_tableInsert_ne {α : Type} (k k2 : String) (v : α) (h : k2 ≠ k) :
    ∀ t : List (String × α), (tableInsert t k v).lookup k2 = t.lookup k2 := by
  intro t
  have hbeq : (k2 == k) = false := beq_eq_false_iff_ne.mpr h
  induction t with
  | nil => simp [tableInsert, List.lookup, hbeq]
  | cons hd tl ih =>
      obtain ⟨k1, v1⟩ := hd
      by_cases hk : k1 = k
      · subst hk
        simp [tableInsert, List.lookup, hbeq]
      · simp [tableInsert, hk, List.lookup, ih]

theorem lookup_tableErase_self {α : Type} (k : String) :
    ∀ t : List (String × α), (tableErase t k).lookup k = none := by
  intro t
  induction t with
  | nil => rfl
  | cons hd tl ih =>
      obtain ⟨k1, v1⟩ := hd
      by_cases hk : k1 = k
      · simp [tableErase, hk, ih]
      · have hbeq : (k == k1) = false := by
          rw [beq_eq_false_iff_ne]
          exact fun hkk => hk hkk.symm
        simp [tableErase, hk, List.lookup, hbeq, ih]

theorem lookup_tableErase_ne {α : Type} (k k2 : String) (h : k2 ≠ k) :
    ∀ t : List (String × α), (tableErase t k).lookup k2 = t.lookup k2 := by
  intro t
  have hbeqk : (k2 == k) = false := beq_eq_false_iff_ne.mpr h
  induction t with
  | nil => rfl
  | cons hd tl ih =>
      obtain ⟨k1, v1⟩ := hd
      by_cases hk : k1 = k
      · simp [tableErase, hk, List.lookup, hbeqk, ih]
      · simp [tableErase, hk, List.lookup, ih]

theorem isStr_eq {j : Json} {s : String} (h : j.isStr s = true) : j = .str s := by
  cases j <;> simp_all [Json.isStr]

theorem collectResponses_cons (o : Oracle) (sid : Option String) (m : Json) (rest : List Json)
    (r : Option Json) (rs : List Json)
    (hm : process_mcp_message o sid m = .ok r) (hrest : collectResponses o sid rest = .ok rs) :
    collectResponses o sid (m :: rest)
      = .ok (match r with
             | some env => if env.isTruthy then env :: rs else rs
             | none => rs) := by
  simp only [collectResponses, hm, hrest]
  cases r with
  | none => rfl
  | some env => rfl

theorem process_some_truthy (o : Oracle) (sid : Option String) (body env : Json)
    (h : process_mcp_message o sid body = .ok (some env)) : env.isTruthy = true := by
  cases body
  case obj fs =>
    simp only [process_mcp_message] at h
    repeat' split at h
    all_goals
      first
        | (simp only [Except.ok.injEq, Option.some.injEq] at h
           subst h
           rfl)
        | simp at h
  all_goals simp [process_mcp_message] at h

/-! ## The claims -/

/-- C1: every response envelope built by `process_mcp_message` carries the
`id` read (by `body.get("id")`) from the triggering message, and the
envelope returned for a body that fails JSON parsing has `id` null. -/
theorem C1_response_id_echoes_request :
    (∀ (o : Oracle) (sid : Option String) (body env : Json),
        process_mcp_message o sid body = .ok (some env) →
        env.field "id" = some (pyGet body "id"))
    ∧ (∀ (o : Oracle) (t : SessionTable) (fresh : String) (now : Nat) (sid : Option String)
        (env : Json),
        (mcp_post o t fresh now sid none).1.body = some env →
        env.field "id" = some .null) := by
  constructor
  · intro o sid body env h
    cases body
    case obj fs =>
      simp only [process_mcp_message] at h
      repeat' split at h
      all_goals
        first
          | (simp only [Except.ok.injEq, Option.some.injEq] at h
             subst h
             rw [success_field_id, pyGet_obj])
          | (simp only [Except.ok.injEq, Option.some.injEq] at h
             subst h
             rw [error_field_id, pyGet_obj])
          | simp at h
    all_goals simp [process_mcp_message] at h
  · intro o t fresh now sid env h
    simp only [mcp_post] at h
    simp only [Option.some.injEq] at h
    subst h
    exact error_field_id .null "Parse error"

/-- Witness for C1 at the ping request of the spec's scenario and at the
parse-failure envelope. -/
theorem C1_witness :
    ((JsonRpcFormat.success (.num 1) (.obj [])).field "id"
      = some (pyGet (Json.obj [("jsonrpc", .str "2.0"), ("id", .num 1), ("method", .str "ping")]) "id"))
    ∧ (JsonRpcFormat.error .null "Parse error").field "id" = some .null :=
  ⟨C1_response_id_echoes_request.1 oNull none
      (Json.obj [("jsonrpc", .str "2.0"), ("id", .num 1), ("method", .str "ping")])
      (JsonRpcFormat.success (.num 1) (.obj [])) rfl,
   C1_response_id_echoes_request.2 oNull [] "s" 0 none
      (JsonRpcFormat.error .null "Parse error") rfl⟩

/-- C2 as stated fails on the code: the error envelopes of `server.py`
never carry a \x7bcode: integer, message: string\x7d object — the
`error` member is a plain string.  At the concrete malformed-body input
the envelope's `error` is the string `"Parse error"` (no −32700), and
at the concrete unknown-method request it is the string
`"Method not found: foo/bar"` (no −32601). -/
theorem C2_claim_counterexample :
    ((mcp_post oNull [] "s1" 0 none none).1.body
        = some (JsonRpcFormat.error .null "Parse error"))
    ∧ (JsonRpcFormat.error .null "Parse error").field "error" = some (.str "Parse error")
    ∧ isCodeMessageObj (.str "Parse error") = false
    ∧ process_mcp_message oNull none
        (.obj [("jsonrpc", .str "2.0"), ("id", .num 7), ("method", .str "foo/bar")])
        = .ok (some (JsonRpcFormat.error (.num 7) "Method not found: foo/bar"))
    ∧ isCodeMessageObj (.str "Method not found: foo/bar") = false :=
  ⟨rfl, rfl, rfl, rfl, rfl⟩

/-- C2 amended: every dispatch error envelope carries a plain string
under the `error` key (shape `\x7bjsonrpc, id, error: string\x7d`, not a
code/message object): a malformed POST body yields HTTP 400 with the
envelope `\x7bid: null, error: "Parse error"\x7d`, and an unrecognized
method yields an envelope whose error string names the method with the
request's `id` echoed. -/
theorem C2_error_envelope_is_string :
    (∀ (o : Oracle) (t : SessionTable) (fresh : String) (now : Nat) (sid : Option String),
        (mcp_post o t fresh now sid none).1
          = ⟨400, [], some (JsonRpcFormat.error .null "Parse error")⟩)
    ∧ (∀ (o : Oracle) (sid : Option String) (fs : List (String × Json)),
        (jget fs "method").isStr "initialize" = false →
        (jget fs "method").isStr "notifications/initialized" = false →
        (jget fs "method").isStr "tools/list" = false →
        (jget fs "method").isStr "tools/call" = false →
        (jget fs "method").isStr "ping" = false →
        process_mcp_message o sid (.obj fs)
          = .ok (some (JsonRpcFormat.error (jget fs "id")
              ("Method not found: " ++ pyStr (jget fs "method")))))
    ∧ (∀ (o : Oracle) (t : SessionTable) (fresh : String) (now : Nat) (sid : Option String)
        (fs : List (String × Json)),
        (jget fs "method").isStr "initialize" = false →
        (jget fs "method").isStr "notifications/initialized" = false →
        (jget fs "method").isStr "tools/list" = false →
        (jget fs "method").isStr "tools/call" = false →
        (jget fs "method").isStr "ping" = false →
        (mcp_post o t fresh now sid (some (.arr [.obj fs]))).1.body
          = some (JsonRpcFormat.error (jget fs "id")
              ("Method not found: " ++ pyStr (jget fs "method"))))
    ∧ ∀ (msg_id : Json) (s : String),
        (JsonRpcFormat.error msg_id s).field "error" = some (.str s) := by
  have hproc : ∀ (o : Oracle) (sid : Option String) (fs : List (String × Json)),
      (jget fs "method").isStr "initialize" = false →
      (jget fs "method").isStr "notifications/initialized" = false →
      (jget fs "method").isStr "tools/list" = false →
      (jget fs "method").isStr "tools/call" = false →
      (jget fs "method").isStr "ping" = false →
      process_mcp_message o sid (.obj fs)
        = .ok (some (JsonRpcFormat.error (jget fs "id")
            ("Method not found: " ++ pyStr (jget fs "method")))) := by
    intro o sid fs h1 h2 h3 h4 h5
    simp [process_mcp_message, h1, h2, h3, h4, h5]
  refine ⟨fun o t fresh now sid => rfl, hproc, ?_, fun msg_id s => rfl⟩
  intro o t fresh now sid fs h1 h2 h3 h4 h5
  have hcoll : collectResponses o sid [.obj fs]
      = .ok [JsonRpcFormat.error (jget fs "id")
          ("Method not found: " ++ pyStr (jget fs "method"))] := by
    rw [collectResponses_cons o sid (.obj fs) [] _ [] (hproc o sid fs h1 h2 h3 h4 h5) rfl]
    simp [error_isTruthy]
  simp [mcp_post, hcoll]

/-- Witness for the amended C2 at the concrete unknown-method request,
both as a single message and as a one-element batch. -/
theorem C2_amended_witness :
    (process_mcp_message oNull none (.obj [("id", .num 7), ("method", .str "foo/bar")])
      = .ok (some (JsonRpcFormat.error (jget [("id", .num 7), ("method", .str "foo/bar")] "id")
          ("Method not found: "
            ++ pyStr (jget [("id", .num 7), ("method", .str "foo/bar")] "method")))))
    ∧ ((mcp_post oNull [] "s" 0 none
          (some (.arr [.obj [("id", .num 7), ("method", .str "foo/bar")]]))).1.body
      = some (JsonRpcFormat.error (jget [("id", .num 7), ("method", .str "foo/bar")] "id")
          ("Method not found: "
            ++ pyStr (jget [("id", .num 7), ("method", .str "foo/bar")] "method")))) :=
  ⟨C2_error_envelope_is_string.2.1 oNull none
      [("id", .num 7), ("method", .str "foo/bar")] rfl rfl rfl rfl rfl,
   C2_error_envelope_is_string.2.2.1 oNull [] "s" 0 none
      [("id", .num 7), ("method", .str "foo/bar")] rfl rfl rfl rfl rfl⟩

/-- C3 as stated fails on the code: the batch branch of `mcp_post` has no
id-is-null check, so a batch element that is a notification by the
spec's own definition (`method` present, `id` absent) does contribute a
reply — the one-element batch `[{"method":"ping"}]` returns HTTP 200
with the ping reply (id null), not 202, and
`[{"method":"notifications/cancelled"}]` returns HTTP 200 with a
Method-not-found error envelope; the same id-less ping sent as a
top-level single message is answered 202 with no body. -/
theorem C3_claim_counterexample :
    ((mcp_post oNull [] "s" 0 none (some (.arr [.obj [("method", .str "ping")]]))).1
        = ⟨200, [("Content-Type", "application/json")],
            some (JsonRpcFormat.success .null (.obj []))⟩)
    ∧ ((mcp_post oNull [] "s" 0 none
          (some (.arr [.obj [("method", .str "notifications/cancelled")]]))).1
        = ⟨200, [("Content-Type", "application/json")],
            some (JsonRpcFormat.error .null "Method not found: notifications/cancelled")⟩)
    ∧ ((mcp_post oNull [] "s" 0 none (some (.obj [("method", .str "ping")]))).1
        = ⟨202, [], none⟩) :=
  ⟨rfl, rfl, rfl⟩

/-- C3 amended: for every batch (array) body POSTed to `/mcp`, the
elements are dispatched independently in array order (the collected
replies are the in-order `filterMap` of per-element replies); an
element contributes no reply exactly when its dispatch returns no
envelope, which — for a dispatch that does not raise — happens only for
`method == "notifications/initialized"` (an element that is a
notification merely by lacking an `id`, or one with method
`notifications/cancelled`, does contribute a reply: the batch branch,
unlike the single-message branch, performs no id-is-null check); when
no replies remain the response is 202 with no body; when exactly one
reply remains it is returned unwrapped rather than as a one-element
array; and the batch `[notifications/initialized, request]` yields
exactly the request's reply object. -/
theorem C3_batch_dispatch :
    (∀ (o : Oracle) (sid : Option String) (msgs : List Json),
        (∀ m ∈ msgs, ∃ r, process_mcp_message o sid m = .ok r) →
        collectResponses o sid msgs = .ok (msgs.filterMap (replyOf o sid)))
    ∧ (∀ (o : Oracle) (sid : Option String) (body env : Json),
        process_mcp_message o sid body = .ok (some env) →
        replyOf o sid body = some env)
    ∧ (∀ (o : Oracle) (sid : Option String) (fs : List (String × Json)) (r : Option Json),
        process_mcp_message o sid (.obj fs) = .ok r →
        (r = none ↔ (jget fs "method").isStr "notifications/initialized" = true))
    ∧ (∀ (o : Oracle) (t : SessionTable) (fresh : String) (now : Nat) (sid : Option String)
        (msgs : List Json),
        (∀ m ∈ msgs, ∃ r, process_mcp_message o sid m = .ok r) →
        msgs.filterMap (replyOf o sid) = [] →
        (mcp_post o t fresh now sid (some (.arr msgs))).1 = ⟨202, [], none⟩)
    ∧ (∀ (o : Oracle) (t : SessionTable) (fresh : String) (now : Nat) (sid : Option String)
        (msgs : List Json) (r : Json),
        (∀ m ∈ msgs, ∃ r2, process_mcp_message o sid m = .ok r2) →
        msgs.filterMap (replyOf o sid) = [r] →
        (mcp_post o t fresh now sid (some (.arr msgs))).1
          = ⟨200, [("Content-Type", "application/json")], some r⟩)
    ∧ (∀ (o : Oracle) (t : SessionTable) (fresh : String) (now : Nat) (sid : Option String)
        (n q env : Json),
        process_mcp_message o sid n = .ok none →
        process_mcp_message o sid q = .ok (some env) →
        (mcp_post o t fresh now sid (some (.arr [n, q]))).1
          = ⟨200, [("Content-Type", "application/json")], some env⟩) := by
  have hcoll : ∀ (o : Oracle) (sid : Option String) (msgs : List Json),
      (∀ m ∈ msgs, ∃ r, process_mcp_message o sid m = .ok r) →
      collectResponses o sid msgs = .ok (msgs.filterMap (replyOf o sid)) := by
    intro o sid msgs hok
    induction msgs with
    | nil => rfl
    | cons m rest ih =>
        obtain ⟨r, hr⟩ := hok m (by simp)
        have hrest := ih fun x hx => hok x (by simp [hx])
        rw [collectResponses_cons o sid m rest r _ hr hrest]
        cases r with
        | none => simp [List.filterMap_cons, replyOf, hr]
        | some env =>
            cases henv : env.isTruthy <;>
              simp [List.filterMap_cons, replyOf, hr, henv]
  have hsome : ∀ (o : Oracle) (sid : Option String) (body env : Json),
      process_mcp_message o sid body = .ok (some env) →
      replyOf o sid body = some env := by
    intro o sid body env h
    have ht := process_some_truthy o sid body env h
    simp [replyOf, h, ht]
  refine ⟨hcoll, hsome, ?_, ?_, ?_, ?_⟩
  · intro o sid fs r h
    simp only [process_mcp_message] at h
    repeat' split at h
    all_goals
      first
        | (simp only [Except.ok.injEq] at h
           subst h
           first
             | (rename_i hcond
                rw [isStr_eq hcond]
                simp [Json.isStr])
             | simp_all)
        | simp at h
  · intro o t fresh now sid msgs hok hnil
    simp [mcp_post, hcoll o sid msgs hok, hnil]
  · intro o t fresh now sid msgs r hok hone
    simp [mcp_post, hcoll o sid msgs hok, hone]
  · intro o t fresh now sid n q env hn hq
    have hok : ∀ m ∈ [n, q], ∃ r, process_mcp_message o sid m = .ok r := by
      intro m hm
      simp only [List.mem_cons, List.not_mem_nil, or_false] at hm
      rcases hm with h1 | h2
      · subst h1
        exact ⟨none, hn⟩
      · subst h2
        exact ⟨some env, hq⟩
    have hrn : replyOf o sid n = none := by
      simp [replyOf, hn]
    have hrq : replyOf o sid q = some env := hsome o sid q env hq
    have hone : [n, q].filterMap (replyOf o sid) = [env] := by
      simp [List.filterMap_cons, hrn, hrq]
    simp [mcp_post, hcoll o sid [n, q] hok, hone]

/-- Witness for the amended C3: the concrete batch
`[notifications/initialized, ping request]` yields exactly the ping
reply, unwrapped; and the characterizing equivalence instantiated at
the id-less ping message, whose dispatch returns an envelope. -/
theorem C3_witness :
    ((mcp_post oNull [] "s" 0 none (some (.arr [
        .obj [("method", .str "notifications/initialized")],
        .obj [("jsonrpc", .str "2.0"), ("id", .num 1), ("method", .str "ping")]]))).1
      = ⟨200, [("Content-Type", "application/json")],
          some (JsonRpcFormat.success (.num 1) (.obj []))⟩)
    ∧ ((some (JsonRpcFormat.success .null (.obj [])) : Option Json) = none
        ↔ (jget [("method", .str "ping")] "method").isStr "notifications/initialized" = true) :=
  ⟨C3_batch_dispatch.2.2.2.2.2 oNull [] "s" 0 none
      (.obj [("method", .str "notifications/initialized")])
      (.obj [("jsonrpc", .str "2.0"), ("id", .num 1), ("method", .str "ping")])
      (JsonRpcFormat.success (.num 1) (.obj [])) rfl rfl,
   C3_batch_dispatch.2.2.1 oNull none [("method", .str "ping")]
      (some (JsonRpcFormat.success .null (.obj []))) rfl⟩

/-- C4 as stated fails on the code: `compare_products` with the
one-element product list `["아이폰15"]` does not fail with an
InvalidArgument error — `execute_tool` returns (not raises) the generic
retry-later `isError` payload, exactly the payload produced for an
upstream completion-API failure (second conjunct: a well-formed
two-element call whose upstream result collapsed to `None`). -/
theorem C4_claim_counterexample :
    (execute_tool oNull (.str "compare_products")
        (.obj [("product_list", .arr [.str "아이폰15"])])
      = .ok (ResponseFormat.error (.str ERROR_MESSAGE)))
    ∧ (execute_tool oNull (.str "compare_products")
        (.obj [("product_list", .arr [.str "아이폰15", .str "갤럭시S24"])])
      = .ok (ResponseFormat.error (.str ERROR_MESSAGE))) :=
  ⟨rfl, rfl⟩

/-- C4 amended: `execute_tool` raises InvalidArgument (HTTP 400) for
`compare_products` only when `product_list` is missing, empty, or not a
list; a list holding exactly one product name is forwarded, rejected by
the length check in the comparison layer, and surfaces as the generic
retry-later `isError:true` payload, indistinguishable from an upstream
failure. -/
theorem C4_single_product_generic_failure :
    (∀ (o : Oracle) (name : String),
        execute_tool o (.str "compare_products") (.obj [("product_list", .arr [.str name])])
          = .ok (ResponseFormat.error (.str ERROR_MESSAGE)))
    ∧ (∀ o : Oracle,
        execute_tool o (.str "compare_products") (.obj [("product_list", .arr [])])
          = .error ⟨400, "제품명을 입력해주세요."⟩)
    ∧ (∀ o : Oracle,
        execute_tool o (.str "compare_products") (.obj [])
          = .error ⟨400, "제품명을 입력해주세요."⟩)
    ∧ (∀ (o : Oracle) (s : String),
        execute_tool o (.str "compare_products") (.obj [("product_list", .str s)])
          = .error ⟨400, "제품명을 입력해주세요."⟩) :=
  ⟨fun _ _ => rfl, fun _ => rfl, fun _ => rfl, fun _ _ => rfl⟩

/-- C5 as stated fails on the code: when the executor fails (here:
one-element comparison list), the JSON-RPC result still has
`isError: false` — the executor's `isError:true` payload is only
reachable JSON-serialized inside the `text` member — so the result is
neither the executor's Markdown text nor an `isError:true` payload. -/
theorem C5_claim_counterexample :
    (execute_tool oNull (.str "compare_products") (.obj [("product_list", .arr [.str "solo"])])
        = .ok (ResponseFormat.error (.str ERROR_MESSAGE)))
    ∧ ((ResponseFormat.error (.str ERROR_MESSAGE)).field "isError" = some (.bool true))
    ∧ (process_mcp_message oNull none
        (.obj [("jsonrpc", .str "2.0"), ("id", .num 5), ("method", .str "tools/call"),
          ("params", .obj [("name", .str "compare_products"),
            ("arguments", .obj [("product_list", .arr [.str "solo"])])])])
        = .ok (some (JsonRpcFormat.success (.num 5)
            (ResponseFormat.success
              (.str (json_dumps (ResponseFormat.error (.str ERROR_MESSAGE))))))))
    ∧ ((ResponseFormat.success
          (.str (json_dumps (ResponseFormat.error (.str ERROR_MESSAGE))))).field "isError"
        = some (.bool false)) :=
  ⟨rfl, rfl, rfl, rfl⟩

/-- C5 amended: for every `tools/call` request whose params parse, a
returning executor yields the JSON-RPC result
`\x7bcontent:[\x7btype:"text", text: t\x7d], isError:false\x7d` where
`t` is the `json.dumps` serialization of the executor's whole payload
dict (itself a content/isError object) — not the executor's Markdown
text; and an exception raised by the executor is caught and converted
to a JSON-RPC error envelope whose `error` member is the exception's
message string (no −32603 code), never propagated to the transport. -/
theorem C5_tools_call_wraps_serialized_payload :
    (∀ (o : Oracle) (sid : Option String) (fs pfs : List (String × Json)) (p : Json),
        jget fs "method" = .str "tools/call" →
        jgetD fs "params" (.obj []) = .obj pfs →
        execute_tool o (jget pfs "name") (jgetD pfs "arguments" (.obj [])) = .ok p →
        process_mcp_message o sid (.obj fs)
          = .ok (some (JsonRpcFormat.success (jget fs "id")
              (ResponseFormat.success (.str (json_dumps p))))))
    ∧ (∀ (o : Oracle) (sid : Option String) (fs pfs : List (String × Json)) (e : HTTPExn),
        jget fs "method" = .str "tools/call" →
        jgetD fs "params" (.obj []) = .obj pfs →
        execute_tool o (jget pfs "name") (jgetD pfs "arguments" (.obj [])) = .error e →
        process_mcp_message o sid (.obj fs)
          = .ok (some (JsonRpcFormat.error (jget fs "id") e.toPyStr))) := by
  constructor
  · intro o sid fs pfs p hm hp hexec
    simp [process_mcp_message, hm, hp, hexec, Json.isStr]
  · intro o sid fs pfs e hm hp hexec
    simp [process_mcp_message, hm, hp, hexec, Json.isStr]

/-- Witness for the amended C5: the success shape at the concrete
one-element comparison call, and the caught-exception shape at the
concrete missing-`product_name` `get_product` call. -/
theorem C5_amended_witness :
    (process_mcp_message oNull none
        (.obj [("id", .num 5), ("method", .str "tools/call"),
          ("params", .obj [("name", .str "compare_products"),
            ("arguments", .obj [("product_list", .arr [.str "solo"])])])])
      = .ok (some (JsonRpcFormat.success
          (jget [("id", .num 5), ("method", .str "tools/call"),
            ("params", .obj [("name", .str "compare_products"),
              ("arguments", .obj [("product_list", .arr [.str "solo"])])])] "id")
          (ResponseFormat.success
            (.str (json_dumps (ResponseFormat.error (.str ERROR_MESSAGE))))))))
    ∧ (process_mcp_message oNull none
        (.obj [("id", .num 6), ("method", .str "tools/call"),
          ("params", .obj [("name", .str "get_product"), ("arguments", .obj [])])])
      = .ok (some (JsonRpcFormat.error
          (jget [("id", .num 6), ("method", .str "tools/call"),
            ("params", .obj [("name", .str "get_product"), ("arguments", .obj [])])] "id")
          (HTTPExn.toPyStr ⟨400, "제품명을 입력해주세요."⟩)))) :=
  ⟨C5_tools_call_wraps_serialized_payload.1 oNull none _ _
      (ResponseFormat.error (.str ERROR_MESSAGE)) rfl rfl rfl,
   C5_tools_call_wraps_serialized_payload.2 oNull none _ _
      ⟨400, "제품명을 입력해주세요."⟩ rfl rfl rfl⟩

/-- C6 as stated fails on the code: a non-empty unknown tool name does
not fail with NotFound — the `ValueError` it raises is swallowed by the
generic `except Exception`, producing the same retry-later payload as
an upstream failure; only a falsy (empty/missing) name raises 404. -/
theorem C6_claim_counterexample :
    (execute_tool oNull (.str "frobnicate") (.obj [])
        = .ok (ResponseFormat.error (.str ERROR_MESSAGE)))
    ∧ (execute_tool oNull (.str "") (.obj [])
        = .error ⟨404, "Tool \x27\x27 not found"⟩) :=
  ⟨rfl, rfl⟩

/-- C6 amended: a `tools/call` naming a non-empty tool absent from the
catalog yields the generic retry-later `isError:true` payload (not a
NotFound error), and the failure is recoverable — the caller still
receives a well-formed JSON-RPC success envelope wrapping that payload;
a 404 NotFound is raised only for a falsy (empty) tool name. -/
theorem C6_unknown_tool_generic_error (o : Oracle) (args : Json) (name : String)
    (h1 : name ≠ "") (h2 : name ≠ "get_product") (h3 : name ≠ "create_shopping_guide")
    (h4 : name ≠ "compare_products") :
    (execute_tool o (.str name) args = .ok (ResponseFormat.error (.str ERROR_MESSAGE)))
    ∧ (∀ (sid : Option String) (fs pfs : List (String × Json)),
        jget fs "method" = .str "tools/call" →
        jgetD fs "params" (.obj []) = .obj pfs →
        jget pfs "name" = .str name →
        jgetD pfs "arguments" (.obj []) = args →
        process_mcp_message o sid (.obj fs)
          = .ok (some (JsonRpcFormat.success (jget fs "id")
              (ResponseFormat.success
                (.str (json_dumps (ResponseFormat.error (.str ERROR_MESSAGE))))))))
    ∧ ∀ (o2 : Oracle) (args2 : Json),
        execute_tool o2 (.str "") args2 = .error ⟨404, "Tool \x27\x27 not found"⟩ := by
  have hexec : execute_tool o (.str name) args = .ok (ResponseFormat.error (.str ERROR_MESSAGE)) := by
    simp [execute_tool, execute_tool_try, Json.isTruthy, Json.isStr, h1, h2, h3, h4]
  refine ⟨hexec, ?_, fun o2 args2 => rfl⟩
  intro sid fs pfs hm hp hn ha
  simp [process_mcp_message, hm, hp, Json.isStr, hn, ha, hexec]

/-- Witness for the amended C6 at the concrete unknown name
`"frobnicate"` and a concrete `tools/call` request. -/
theorem C6_amended_witness :
    (execute_tool oNull (.str "frobnicate") (.obj [])
        = .ok (ResponseFormat.error (.str ERROR_MESSAGE)))
    ∧ (process_mcp_message oNull none
        (.obj [("id", .num 9), ("method", .str "tools/call"),
          ("params", .obj [("name", .str "frobnicate"), ("arguments", .obj [])])])
      = .ok (some (JsonRpcFormat.success
          (jget [("id", .num 9), ("method", .str "tools/call"),
            ("params", .obj [("name", .str "frobnicate"), ("arguments", .obj [])])] "id")
          (ResponseFormat.success
            (.str (json_dumps (ResponseFormat.error (.str ERROR_MESSAGE)))))))) := by
  have h := C6_unknown_tool_generic_error oNull (.obj []) "frobnicate"
    (by decide) (by decide) (by decide) (by decide)
  exact ⟨h.1, h.2.1 none _ _ rfl rfl rfl rfl⟩

/-- C7 as stated fails on the code: `GET /mcp` whose `Accept` header
lacks `text/event-stream` is answered with HTTP 405 (`Allow: POST`),
not 406. -/
theorem C7_claim_counterexample :
    mcp_get [] "application/json" none = .methodNotAllowed
    ∧ GetReply.status .methodNotAllowed = 405
    ∧ (405 : Nat) ≠ 406 :=
  ⟨rfl, rfl, by decide⟩

/-- C7 amended: a `GET /mcp` whose `Accept` header does not contain
`text/event-stream` is answered with HTTP 405 (not 406); when the
header does contain it and the `mcp-session-id` header is absent/empty
or names a known session, the indefinite keep-alive SSE stream is
opened (a truthy unknown session id instead gives 404). -/
theorem C7_get_accept_handling (t : SessionTable) (accept : String) (sid : Option String) :
    (strContains accept "text/event-stream" = false →
        mcp_get t accept sid = .methodNotAllowed ∧ (mcp_get t accept sid).status = 405)
    ∧ (strContains accept "text/event-stream" = true →
        (headerTruthy sid = false ∨ (t.lookup (sid.getD "")).isSome = true) →
        mcp_get t accept sid = .eventStream)
    ∧ (strContains accept "text/event-stream" = true →
        headerTruthy sid = true → t.lookup (sid.getD "") = none →
        mcp_get t accept sid = .sessionNotFound) := by
  refine ⟨?_, ?_, ?_⟩
  · intro h
    simp [mcp_get, h, GetReply.status]
  · intro h hs
    rcases hs with hs | hs
    · simp [mcp_get, h, hs]
    · cases hl : t.lookup (sid.getD "") with
      | none => rw [hl] at hs; simp at hs
      | some v => simp [mcp_get, h, hl]
  · intro h hs hl
    simp [mcp_get, h, hs, hl]

/-- Witness for the amended C7: a plain-JSON `Accept` gives 405; a
stream `Accept` without a session header opens the stream. -/
theorem C7_amended_witness :
    (mcp_get [] "application/json" none = .methodNotAllowed
      ∧ (mcp_get [] "application/json" none).status = 405)
    ∧ mcp_get [] "text/event-stream" none = .eventStream :=
  ⟨(C7_get_accept_handling [] "application/json" none).1 (by decide),
   (C7_get_accept_handling [] "text/event-stream" none).2.1 (by decide) (Or.inl rfl)⟩

/-- C8: authorization codes are single-use and 10-minute bounded: a
successful `authorization_code` grant deletes the code, so a second
redemption of the same code is rejected with the unchanged state; and a
redemption of a stored code attempted strictly after `created_at + 600`
seconds is rejected as expired with the code deleted. -/
theorem C8_auth_code_one_time_and_expiry :
    (∀ (st st2 : OAuthState) (c : String) (now : Nat) (acc ref : String) (resp : Json),
        token_auth_code_grant st (some c) now acc ref = (.ok resp, st2) →
        st2.auth_codes.lookup c = none
        ∧ ∀ (now2 : Nat) (acc2 ref2 : String),
            token_auth_code_grant st2 (some c) now2 acc2 ref2
              = (.error ⟨400, "Invalid authorization code"⟩, st2))
    ∧ (∀ (st : OAuthState) (c : String) (email uname cid : Json) (tIssue now : Nat)
        (acc ref : String),
        c ≠ "" →
        now > tIssue + 600 →
        (token_auth_code_grant (store_auth_code st c email uname cid tIssue) (some c) now acc ref
          = (.error ⟨400, "Authorization code expired"⟩,
             { tokens := st.tokens,
               auth_codes :=
                 tableErase (tableInsert st.auth_codes c ⟨email, uname, cid, tIssue, tIssue + 600⟩) c }))
        ∧ (tableErase (tableInsert st.auth_codes c ⟨email, uname, cid, tIssue, tIssue + 600⟩) c).lookup c
            = none) := by
  constructor
  · intro st st2 c now acc ref resp h
    simp only [token_auth_code_grant] at h
    split at h
    · simp at h
    · split at h
      · simp at h
      · split at h
        · simp at h
        · simp only [Prod.mk.injEq, Except.ok.injEq] at h
          obtain ⟨hresp, rfl⟩ := h
          refine ⟨lookup_tableErase_self c st.auth_codes, ?_⟩
          intro now2 acc2 ref2
          by_cases hc : c = "" <;>
            simp [token_auth_code_grant, hc, lookup_tableErase_self]
  · intro st c email uname cid tIssue now acc ref hc hnow
    constructor
    · simp [token_auth_code_grant, store_auth_code, hc,
        lookup_tableInsert_self, hnow]
    · exact lookup_tableErase_self c _

/-- Witness for C8: a concrete code `"code1"` stored at time 0 is
redeemed at time 10, after which it is gone and a second redemption is
rejected; and a concrete code redeemed at time 601 is expired. -/
theorem C8_witness :
    (((⟨[("tok1", ⟨.str "e", .str "n", "ref1", 10, 3610⟩)], []⟩ : OAuthState).auth_codes.lookup
        "code1" = none)
      ∧ ∀ (now2 : Nat) (acc2 ref2 : String),
          token_auth_code_grant
            (⟨[("tok1", ⟨.str "e", .str "n", "ref1", 10, 3610⟩)], []⟩ : OAuthState)
            (some "code1") now2 acc2 ref2
            = (.error ⟨400, "Invalid authorization code"⟩,
               (⟨[("tok1", ⟨.str "e", .str "n", "ref1", 10, 3610⟩)], []⟩ : OAuthState)))
    ∧ ((token_auth_code_grant (store_auth_code ⟨[], []⟩ "code1" (.str "e") (.str "n") .null 0)
          (some "code1") 601 "t2" "r2"
          = (.error ⟨400, "Authorization code expired"⟩,
             { tokens := ([] : List (String × TokenData)),
               auth_codes :=
                 tableErase (tableInsert ([] : List (String × AuthCodeData)) "code1" ⟨.str "e", .str "n", .null, 0, 600⟩) "code1" }))
        ∧ (tableErase (tableInsert ([] : List (String × AuthCodeData)) "code1" ⟨.str "e", .str "n", .null, 0, 600⟩) "code1").lookup
            "code1" = none) := by
  refine ⟨?_, ?_⟩
  · exact C8_auth_code_one_time_and_expiry.1
      (⟨[], [("code1", ⟨.str "e", .str "n", .null, 0, 600⟩)]⟩ : OAuthState)
      (⟨[("tok1", ⟨.str "e", .str "n", "ref1", 10, 3610⟩)], []⟩ : OAuthState)
      "code1" 10 "tok1" "ref1" (token_grant_body "tok1" "ref1") rfl
  · exact C8_auth_code_one_time_and_expiry.2 ⟨[], []⟩ "code1" (.str "e") (.str "n") .null 0 601
      "t2" "r2" (by decide) (by decide)

/-- C9: bearer verification accepts a `Bearer `-prefixed token exactly
when the stripped token is stored and its `expires_at` has not elapsed,
returning the identity captured at issuance, and lazily evicts an
expired entry; a freshly minted access token carries the code's
identity and `expires_at = now + 3600`; a `refresh_token` grant mints a
copy of the matching entry under a new access token with
`expires_at = now + 3600`, while every other table entry — in
particular the prior access token — is left unchanged (additive, not
rotating, refresh). -/
theorem C9_token_verify_and_additive_refresh :
    (∀ (st : OAuthState) (a tok : String) (td : TokenData) (now : Nat),
        a ≠ "" →
        pyStartsWith a "Bearer " = true →
        pyReplace a "Bearer " "" = tok →
        st.tokens.lookup tok = some td →
        (¬ now > td.expires_at → verify_token st (some a) now = (some td, st))
        ∧ (now > td.expires_at →
            verify_token st (some a) now = (none, { st with tokens := tableErase st.tokens tok })
            ∧ (tableErase st.tokens tok).lookup tok = none))
    ∧ (∀ (st : OAuthState) (a tok : String) (now : Nat),
        a ≠ "" →
        pyStartsWith a "Bearer " = true →
        pyReplace a "Bearer " "" = tok →
        st.tokens.lookup tok = none →
        verify_token st (some a) now = (none, st))
    ∧ (∀ (st : OAuthState) (c : String) (ad : AuthCodeData) (now : Nat) (acc ref : String),
        c ≠ "" →
        st.auth_codes.lookup c = some ad →
        ¬ now > ad.expires_at →
        (token_auth_code_grant st (some c) now acc ref).2.tokens.lookup acc
          = some ⟨ad.user_email, ad.user_name, ref, now, now + 3600⟩)
    ∧ (∀ (st : OAuthState) (rv : String) (entry : String × TokenData) (now : Nat) (na : String),
        findRefresh st.tokens (some rv) = some entry →
        ((token_refresh_grant st (some rv) now na).1 = .ok (refresh_grant_body na))
        ∧ ((token_refresh_grant st (some rv) now na).2.tokens.lookup na
            = some { entry.2 with expires_at := now + 3600 })
        ∧ ∀ k, k ≠ na →
            (token_refresh_grant st (some rv) now na).2.tokens.lookup k = st.tokens.lookup k) := by
  refine ⟨?_, ?_, ?_, ?_⟩
  · intro st a tok td now ha hpre hrepl hlook
    constructor
    · intro hexp
      simp [verify_token, ha, hpre, hrepl, hlook, hexp]
    · intro hexp
      refine ⟨?_, lookup_tableErase_self tok st.tokens⟩
      simp [verify_token, ha, hpre, hrepl, hlook, hexp]
  · intro st a tok now ha hpre hrepl hlook
    simp [verify_token, ha, hpre, hrepl, hlook]
  · intro st c ad now acc ref hc hlook hexp
    simp [token_auth_code_grant, hc, hlook, hexp, lookup_tableInsert_self]
  · intro st rv entry now na hfind
    refine ⟨?_, ?_, ?_⟩
    · simp [token_refresh_grant, hfind]
    · obtain ⟨k0, d0⟩ := entry
      simp [token_refresh_grant, hfind, lookup_tableInsert_self]
    · intro k hk
      obtain ⟨k0, d0⟩ := entry
      simp [token_refresh_grant, hfind, lookup_tableInsert_ne na k _ hk]

/-- Witness for C9 at a concrete one-token table: the stored token is
accepted before expiry with its issuance identity; a refresh at time
1000 mints `"tokB"` with expiry 4600 while `"tokA"` keeps its entry. -/
theorem C9_witness :
    (verify_token (⟨[("tokA", ⟨.str "e", .str "n", "refA", 0, 3600⟩)], []⟩ : OAuthState)
        (some "Bearer tokA") 100
      = (some ⟨.str "e", .str "n", "refA", 0, 3600⟩,
         (⟨[("tokA", ⟨.str "e", .str "n", "refA", 0, 3600⟩)], []⟩ : OAuthState)))
    ∧ ((token_refresh_grant
          (⟨[("tokA", ⟨.str "e", .str "n", "refA", 0, 3600⟩)], []⟩ : OAuthState)
          (some "refA") 1000 "tokB").2.tokens.lookup "tokB"
        = some ⟨.str "e", .str "n", "refA", 0, 4600⟩)
    ∧ ((token_refresh_grant
          (⟨[("tokA", ⟨.str "e", .str "n", "refA", 0, 3600⟩)], []⟩ : OAuthState)
          (some "refA") 1000 "tokB").2.tokens.lookup "tokA"
        = (⟨[("tokA", ⟨.str "e", .str "n", "refA", 0, 3600⟩)], []⟩ : OAuthState).tokens.lookup
            "tokA") := by
  refine ⟨?_, ?_, ?_⟩
  · exact (C9_token_verify_and_additive_refresh.1
      ⟨[("tokA", ⟨.str "e", .str "n", "refA", 0, 3600⟩)], []⟩ "Bearer tokA" "tokA"
      ⟨.str "e", .str "n", "refA", 0, 3600⟩ 100
      (by decide) (by decide) (by simp [pyReplace, replaceAux]) rfl).1 (by decide)
  · exact (C9_token_verify_and_additive_refresh.2.2.2
      ⟨[("tokA", ⟨.str "e", .str "n", "refA", 0, 3600⟩)], []⟩ "refA"
      ("tokA", ⟨.str "e", .str "n", "refA", 0, 3600⟩) 1000 "tokB" rfl).2.1
  · exact (C9_token_verify_and_additive_refresh.2.2.2
      ⟨[("tokA", ⟨.str "e", .str "n", "refA", 0, 3600⟩)], []⟩ "refA"
      ("tokA", ⟨.str "e", .str "n", "refA", 0, 3600⟩) 1000 "tokB" rfl).2.2 "tokA" (by decide)

/-- C10: a session is allocated — and `Mcp-Session-Id` returned — only
for a top-level single `initialize` request with a non-null `id`: every
batch (array) body, even one containing an `initialize` element, leaves
the session table unchanged and sets no `Mcp-Session-Id` header, as do
parse failures and every other single message. -/
theorem C10_session_alloc_single_init_only :
    (∀ (o : Oracle) (t : SessionTable) (fresh : String) (now : Nat) (sid : Option String)
        (msgs : List Json),
        (mcp_post o t fresh now sid (some (.arr msgs))).2 = t
        ∧ (mcp_post o t fresh now sid (some (.arr msgs))).1.headers.lookup "Mcp-Session-Id" = none)
    ∧ (∀ (o : Oracle) (t : SessionTable) (fresh : String) (now : Nat) (sid : Option String),
        (mcp_post o t fresh now sid none).2 = t
        ∧ (mcp_post o t fresh now sid none).1.headers.lookup "Mcp-Session-Id" = none)
    ∧ (∀ (o : Oracle) (t : SessionTable) (fresh : String) (now : Nat) (sid : Option String)
        (fs : List (String × Json)),
        (jget fs "method").isStr "initialize" = false ∨ (jget fs "id").isNull = true →
        (mcp_post o t fresh now sid (some (.obj fs))).2 = t
        ∧ (mcp_post o t fresh now sid (some (.obj fs))).1.headers.lookup "Mcp-Session-Id" = none)
    ∧ (∀ (o : Oracle) (t : SessionTable) (fresh : String) (now : Nat) (sid : Option String)
        (fs : List (String × Json)),
        (jget fs "method").isStr "initialize" = true →
        (jget fs "id").isNull = false →
        (mcp_post o t fresh now sid (some (.obj fs))).2 = tableInsert t fresh ⟨[], now, false⟩
        ∧ (mcp_post o t fresh now sid (some (.obj fs))).1.headers.lookup "Mcp-Session-Id"
            = some fresh) := by
  refine ⟨?_, ?_, ?_, ?_⟩
  · intro o t fresh now sid msgs
    cases h : collectResponses o sid msgs with
    | error e => exact ⟨by simp [mcp_post, h], by simp [mcp_post, h]⟩
    | ok rs =>
        cases rs with
        | nil => exact ⟨by simp [mcp_post, h], by simp [mcp_post, h]⟩
        | cons r rest =>
            cases rest with
            | nil => exact ⟨by simp [mcp_post, h], by simp [mcp_post, h]⟩
            | cons r2 rest2 => exact ⟨by simp [mcp_post, h], by simp [mcp_post, h]⟩
  · intro o t fresh now sid
    exact ⟨rfl, rfl⟩
  · intro o t fresh now sid fs h
    simp only [mcp_post]
    split
    · split
      · exact ⟨rfl, rfl⟩
      · exact ⟨rfl, rfl⟩
    · split
      · exact ⟨rfl, rfl⟩
      · split
        · rcases h with hm | hid <;> simp_all
        · exact ⟨rfl, rfl⟩
  · intro o t fresh now sid fs hinit hid
    have hm : jget fs "method" = .str "initialize" := isStr_eq hinit
    have hpost : mcp_post o t fresh now sid (some (.obj fs))
        = ({ status := 200,
             headers := [("Content-Type", "application/json"), ("Mcp-Session-Id", fresh)],
             body := some (JsonRpcFormat.success (jget fs "id") init_info) },
           tableInsert t fresh ⟨[], now, false⟩) := by
      simp [mcp_post, hm, hid, Json.isStr, process_mcp_message, create_session]
    rw [hpost]
    exact ⟨rfl, rfl⟩

/-- Witness for C10: a batch holding an `initialize` element leaves the
empty session table empty with no session header, while the same
message sent as a single request allocates the session and returns its
id in the `Mcp-Session-Id` header. -/
theorem C10_witness :
    ((mcp_post oNull [] "uuid-1" 7 none
        (some (.arr [.obj [("id", .num 1), ("method", .str "initialize")]]))).2 = []
      ∧ (mcp_post oNull [] "uuid-1" 7 none
          (some (.arr [.obj [("id", .num 1), ("method", .str "initialize")]]))).1.headers.lookup
            "Mcp-Session-Id" = none)
    ∧ ((mcp_post oNull [] "uuid-1" 7 none
          (some (.obj [("id", .num 1), ("method", .str "initialize")]))).2
        = tableInsert [] "uuid-1" ⟨[], 7, false⟩
      ∧ (mcp_post oNull [] "uuid-1" 7 none
          (some (.obj [("id", .num 1), ("method", .str "initialize")]))).1.headers.lookup
            "Mcp-Session-Id" = some "uuid-1") :=
  ⟨C10_session_alloc_single_init_only.1 oNull [] "uuid-1" 7 none
      [.obj [("id", .num 1), ("method", .str "initialize")]],
   C10_session_alloc_single_init_only.2.2.2 oNull [] "uuid-1" 7 none
      [("id", .num 1), ("method", .str "initialize")] rfl rfl⟩

end ShoppingAdvisor
